import Mathlib

/-!
# Verification of the `next-level` optimization driver scripts

Shallow embedding of the repository's four Python scripts:

* `src/optimize/run_all.py` — the run-all sequencer,
* `src/optimize/meta_optimizers/user_skill_agent.py`,
* `src/optimize/meta_optimizers/skill_resource_retriever.py`,
* `src/optimize/meta_optimizers/challenge_generator.py`.

Dataset items are Python dicts coming from JSON; they are embedded as a
`Val` tree.  Python's raised exceptions (`KeyError`, `IndexError`,
`TypeError`, and the spec's `TemplateRenderError`) are embedded as an
explicit `PyError` carried in `Except`.  External SDK collaborators
(the judge metric, the optimizer service, JSON serialization) are kept
abstract: the scorers return the exact payload they would forward to the
judge, and the driver loops return the trace of console/optimizer events
they produce.
-/

namespace NextLevel

/-- A JSON-like value, as found in the evaluation dataset items.  Arrays in
these datasets hold strings (skills, career goals, providers, topics), so
list values are embedded directly as `List String`; scalar numbers as `Int`. -/
inductive Val where
  | str : String → Val
  | int : Int → Val
  | list : List String → Val
  | obj : List (String × Val) → Val
deriving Repr

/-- The error taxonomy of the spec (§7) together with the Python errors the
scripts can raise.  A Python `KeyError` on a dataset field is the spec's
`MissingFieldError` (it names the missing field); a missing template
placeholder is the spec's `TemplateRenderError`; `indexOut` is Python's
`IndexError`; `typeErr` a Python `TypeError` (e.g. joining a non-list);
`valueErr` a `ValueError`-style failure raised by the SDK objective
constructor on a weight/metric length mismatch. -/
inductive PyError where
  | missingField : String → PyError
  | renderMissing : String → PyError
  | indexOut : Nat → PyError
  | typeErr : PyError
  | valueErr : String → PyError
deriving Repr, DecidableEq

/-- Dictionary lookup `v[k]` without the raise: `none` when `v` is not an
object or lacks the key. -/
def Val.get? (v : Val) (k : String) : Option Val :=
  match v with
  | .obj fields => fields.lookup k
  | _ => none

/-- Python's `v[k]` on a dict: raises `KeyError(k)` (the spec's
`MissingFieldError` naming `k`) when the key is absent. -/
def getField (v : Val) (k : String) : Except PyError Val :=
  match v.get? k with
  | some x => .ok x
  | none => .error (.missingField k)

/-- Python's `v.get(k, d)`: the value at `k`, or the default `d`. -/
def Val.getD (v : Val) (k : String) (d : Val) : Val :=
  (v.get? k).getD d

/-- Python's `str(v)` as used by the scripts' f-strings, which only ever
interpolate scalars (strings and numbers) directly — lists go through
`", ".join`. -/
def Val.asString : Val → String
  | .str s => s
  | .int n => toString n
  | .list _ => ""
  | .obj _ => ""

/-- Python's `", ".join(xs)` applied to a dataset value: succeeds on a list
of strings, raises `TypeError` otherwise. -/
def Val.asStrList : Val → Except PyError (List String)
  | .list l => .ok l
  | _ => .error .typeErr

/-- `", ".join` on a plain string list. -/
def joinComma (xs : List String) : String :=
  String.intercalate ", " xs

/-- The exact payload a relevance scorer forwards to the external
`AnswerRelevance` judge metric: the serialized dataset-item input (kept as
the value it serializes — `json.dumps` is an external, deterministic
encoder), the candidate LLM output, and the assembled scoring context. -/
structure JudgeCall where
  input : Val
  output : String
  context : List String
deriving Repr

/-- `answer_relevance` from `user_skill_agent.py` (lines 28–42), up to the
external judge: it builds the scoring context from the item's `input` and
`expected` fields (evaluated in source order, so the first missing field
names the error) and returns the payload forwarded to the judge. -/
def ua_relevance_call (dataset_item : Val) (llm_output : String) :
    Except PyError JudgeCall := do
  let input ← getField dataset_item "input"
  let user ← getField input "user"
  let role ← getField user "role"
  let skills ← (← getField user "skills").asStrList
  let careerGoals ← (← getField user "careerGoals").asStrList
  let expected ← getField dataset_item "expected"
  let skillCount ← getField expected "skillCount"
  let excludedSkills ← (← getField expected "excludedSkills").asStrList
  let context : List String := [
    "User role: " ++ role.asString,
    "User current skills: " ++ joinComma skills,
    "User career goals: " ++ joinComma careerGoals,
    "Expected skill count: " ++ skillCount.asString,
    "Skills to exclude (user already has): " ++ joinComma excludedSkills,
    "Output format: JSON Lines — one JSON object per line with exactly these fields: name (string), priority (1-10), reasoning (string)"]
  pure ⟨input, llm_output, context⟩

/-- `user_skill_agent.py`'s `answer_relevance` composed with an arbitrary
judge: the score is the judge's value on the forwarded payload; a missing
field means the judge is never invoked. -/
def ua_answer_relevance (judge : JudgeCall → ℚ) (dataset_item : Val)
    (llm_output : String) : Except PyError ℚ :=
  (ua_relevance_call dataset_item llm_output).map judge

/-- `answer_relevance` from `skill_resource_retriever.py` (lines 30–48), up
to the external judge.  Unlike the other two scripts it defaults the
`expected` structure: `dataset_item.get("expected", {})`, then
`expected.get("minResourceCount", "N/A")` and
`expected.get("expectedProviders", [])`. -/
def sr_relevance_call (dataset_item : Val) (llm_output : String) :
    Except PyError JudgeCall := do
  let inp ← getField dataset_item "input"
  let expected := dataset_item.getD "expected" (.obj [])
  let user ← getField inp "user"
  let role ← getField user "role"
  let skills ← (← getField user "skills").asStrList
  let careerGoals ← (← getField user "careerGoals").asStrList
  let goal ← getField inp "goal"
  let goalName ← getField goal "name"
  let goalReasoning ← getField goal "reasoning"
  let providers ← (expected.getD "expectedProviders" (.list [])).asStrList
  let context : List String := [
    "User role: " ++ role.asString,
    "User current skills: " ++ joinComma skills,
    "User career goals: " ++ joinComma careerGoals,
    "Goal: " ++ goalName.asString,
    "Goal reasoning: " ++ goalReasoning.asString,
    "Expected minimum resources: " ++ (expected.getD "minResourceCount" (.str "N/A")).asString,
    "Expected providers: " ++ joinComma providers,
    "Output format: Array of learning resources with: title, description, provider, resourceType, learningObjectives, sections"]
  pure ⟨inp, llm_output, context⟩

/-- `skill_resource_retriever.py`'s `answer_relevance` composed with an
arbitrary judge. -/
def sr_answer_relevance (judge : JudgeCall → ℚ) (dataset_item : Val)
    (llm_output : String) : Except PyError ℚ :=
  (sr_relevance_call dataset_item llm_output).map judge

/-- `challenge.get("sectionTopics") or []` from `challenge_generator.py`:
an absent key (Python `None`) falls back to the empty list; a present list
is used as is (an empty list is falsy in Python, but `[] or []` is `[]`
again, so the embedding agrees); joining a present non-list raises. -/
def getSectionTopics (challenge : Val) : Except PyError (List String) :=
  match challenge.get? "sectionTopics" with
  | none => .ok []
  | some (.list l) => .ok l
  | some _ => .error .typeErr

/-- `answer_relevance` from `challenge_generator.py` (lines 32–54), up to
the external judge.  Note `challenge = inp["challenge"]` is extracted
before the context list is built. -/
def cg_relevance_call (dataset_item : Val) (llm_output : String) :
    Except PyError JudgeCall := do
  let inp ← getField dataset_item "input"
  let challenge ← getField inp "challenge"
  let user ← getField inp "user"
  let role ← getField user "role"
  let skills ← (← getField user "skills").asStrList
  let careerGoals ← (← getField user "careerGoals").asStrList
  let goal ← getField inp "goal"
  let goalName ← getField goal "name"
  let goalReasoning ← getField goal "reasoning"
  let resource ← getField inp "resource"
  let resourceTitle ← getField resource "title"
  let resourceProvider ← getField resource "provider"
  let sectionTitle ← getField challenge "sectionTitle"
  let difficulty ← getField challenge "difficulty"
  let totalQuestions ← getField challenge "totalQuestions"
  let topics ← getSectionTopics challenge
  let context : List String := [
    "User role: " ++ role.asString,
    "User skills: " ++ joinComma skills,
    "User career goals: " ++ joinComma careerGoals,
    "Learning goal: " ++ goalName.asString,
    "Goal reasoning: " ++ goalReasoning.asString,
    "Resource: " ++ resourceTitle.asString,
    "Resource provider: " ++ resourceProvider.asString,
    "Section: " ++ sectionTitle.asString,
    "Difficulty: " ++ difficulty.asString,
    "Expected question count: " ++ totalQuestions.asString,
    "Topics: " ++ joinComma topics,
    "Output format: Array of question objects with fields: questionNumber, question, options (A/B/C/D), correctAnswer, explanation, hint"]
  pure ⟨inp, llm_output, context⟩

/-- `challenge_generator.py`'s `answer_relevance` composed with an
arbitrary judge. -/
def cg_answer_relevance (judge : JudgeCall → ℚ) (dataset_item : Val)
    (llm_output : String) : Except PyError ℚ :=
  (cg_relevance_call dataset_item llm_output).map judge

/-- An execution-telemetry span, as far as the two telemetry metrics read
it: the external SDK's `TotalSpanCost` metric reads the span's total
cost-accounting value (in currency units), `SpanDuration` its duration
measurement (in seconds).  Both readings are embedded as fields. -/
structure TaskSpan where
  totalCost : ℚ
  durationSeconds : ℚ

/-- The external `TotalSpanCost().score(task_span=s).value`: the
cost-accounting value read from the span. -/
def TotalSpanCost_value (s : TaskSpan) : ℚ := s.totalCost

/-- The external `SpanDuration().score(task_span=s).value`: the duration
measurement read from the span. -/
def SpanDuration_value (s : TaskSpan) : ℚ := s.durationSeconds

/-- `cost_in_cents` as defined identically in `user_skill_agent.py`
(lines 45–48) and `skill_resource_retriever.py` (lines 51–54):
`result.value * 100`. -/
def cost_in_cents (_dataset_item : Val) (_llm_output : String)
    (task_span : TaskSpan) : ℚ :=
  TotalSpanCost_value task_span * 100

/-- `duration_seconds` as defined identically in `user_skill_agent.py`
(lines 51–54) and `skill_resource_retriever.py` (lines 57–60):
`result.value`, unscaled. -/
def duration_seconds (_dataset_item : Val) (_llm_output : String)
    (task_span : TaskSpan) : ℚ :=
  SpanDuration_value task_span

/-- One component scorer handed to the objective combiner, tagged by its
signature: the relevance scorer takes `(dataset_item, llm_output)` (embedded
up to the external judge), the telemetry scorers additionally take the task
span. -/
inductive JobScorer where
  | relevance : (Val → String → Except PyError JudgeCall) → JobScorer
  | telemetry : (Val → String → TaskSpan → ℚ) → JobScorer

/-- Modelled from the spec: `MultiMetricObjective` belongs to the external
`opik_optimizer` SDK, not to this repository; per spec §4.3 it holds an
ordered list of scoring functions and an equal-length, positionally aligned
list of weights. -/
structure MultiMetricObjective where
  weights : List ℚ
  metrics : List JobScorer
  objName : String

/-- Modelled from the spec: construction of a `MultiMetricObjective`
"fails if list lengths mismatch" (spec §4.3). -/
def MultiMetricObjective.make (weights : List ℚ) (metrics : List JobScorer)
    (objName : String) : Except String MultiMetricObjective :=
  if weights.length = metrics.length then
    .ok ⟨weights, metrics, objName⟩
  else
    .error "weights and metrics must have the same length"

/-- Modelled from the spec: the combined objective on the component scores
`s_1 .. s_N` — "the combiner always computes `Σ weight_i * score_i`"
(spec §4.3), here as a left fold over the paired lists. -/
def MultiMetricObjective.combine (o : MultiMetricObjective)
    (scores : List ℚ) : ℚ :=
  (o.weights.zip scores).foldl (fun acc ws => acc + ws.1 * ws.2) 0

/-- The objective constructed by `user_skill_agent.py` (lines 57–61):
weights `[1.0, -0.25, -0.25]` against
`[answer_relevance, cost_in_cents, duration_seconds]`. -/
def ua_metric : Except String MultiMetricObjective :=
  MultiMetricObjective.make [1, -(1/4), -(1/4)]
    [.relevance ua_relevance_call, .telemetry cost_in_cents,
     .telemetry duration_seconds]
    "relevance_cost_duration"

/-- The objective constructed by `skill_resource_retriever.py`
(lines 63–67): same weights, against that script's own scorers. -/
def sr_metric : Except String MultiMetricObjective :=
  MultiMetricObjective.make [1, -(1/4), -(1/4)]
    [.relevance sr_relevance_call, .telemetry cost_in_cents,
     .telemetry duration_seconds]
    "relevance_cost_duration"

/-- A prompt template, as the external registry stores it: a sequence of
literal text segments and named mustache placeholders. -/
inductive Segment where
  | lit : String → Segment
  | hole : String → Segment
deriving Repr, DecidableEq

/-- A template is the sequence of its segments. -/
abbrev Template := List Segment

/-- A value supplied for a placeholder: the scripts pass strings (often
already joined) and numbers coerced to strings by rendering; list values
are joined with `", "` (spec §4.1). -/
inductive TValue where
  | str : String → TValue
  | list : List String → TValue
deriving Repr, DecidableEq

/-- Coercion of a supplied value to text (spec §4.1: "values coerced to
string; list-valued fields joined with `\", \"`"). -/
def TValue.coerce : TValue → String
  | .str s => s
  | .list l => joinComma l

/-- The placeholders a template declares, in order of appearance. -/
def Template.placeholders (t : Template) : List String :=
  t.filterMap fun s =>
    match s with
    | .hole n => some n
    | .lit _ => none

/-- Modelled from the spec: the template renderer is the external SDK's
`prompt.format(...)` (called by all three scripts); per spec §4.1 it
substitutes each placeholder with the supplied value, and signals a
`TemplateRenderError` when a placeholder referenced by the template has no
corresponding mapping entry. -/
def render (t : Template) (m : List (String × TValue)) :
    Except PyError String :=
  match t with
  | [] => .ok ""
  | .lit s :: rest => (render rest m).map (fun r => s ++ r)
  | .hole n :: rest =>
    match m.lookup n with
    | some v => (render rest m).map (fun r => v.coerce ++ r)
    | none => .error (.renderMissing n)

/-- The user message of a `ChatPrompt`: either rendered template text, or —
in `skill_resource_retriever.py` — the `json.dumps` serialization of a
value assembled from the item (the serialization itself is an external,
deterministic encoder, so the payload is kept as the value it encodes). -/
inductive UserMsg where
  | text : String → UserMsg
  | serialized : Val → UserMsg
deriving Repr

/-- The `metric=` argument of `optimizer.optimize_prompt`: the two
multi-metric scripts pass their constructed `MultiMetricObjective`,
`challenge_generator.py` passes its bare `answer_relevance` scorer
(embedded, as everywhere, up to the external judge). -/
inductive MetricArg where
  | objective : MultiMetricObjective → MetricArg
  | scorer : (Val → String → Except PyError JudgeCall) → MetricArg

/-- One observable step of a driver's per-item loop: the
`print(f"\nOptimizing for: {item['name']}")` line, the submission of the
built `ChatPrompt` together with the dataset (embedded as its ordered item
list), the objective (`metric=`) and the per-item sample budget
(`n_samples`) to the external `optimizer.optimize_prompt`, and the
`result.display()` call. -/
inductive DriverEvent where
  | printName : String → DriverEvent
  | optimize : String → UserMsg → List Val → MetricArg → Nat → DriverEvent
  | display : DriverEvent

/-- The item's `name` field as printed (total version: what
`item["name"]` yields when present, `""` otherwise; the drivers only reach
the print when the field is present). -/
def nameOf (item : Val) : String :=
  ((item.get? "name").getD (.str "")).asString

/-- The per-item loop shared by the drivers: items processed in order, each
item's events appended; the first raised error aborts the loop (spec §4.4:
no partial-failure recovery inside a job). -/
def runDriverLoop (itemEvents : Val → Except PyError (List DriverEvent)) :
    List Val → Except PyError (List DriverEvent)
  | [] => .ok []
  | item :: rest => do
    let evs ← itemEvents item
    let evsRest ← runDriverLoop itemEvents rest
    pure (evs ++ evsRest)

/-- The body of `user_skill_agent.py`'s per-item loop (lines 73–97):
format the system prompt (no placeholders supplied), format the user
prompt with the item's user fields, build the `ChatPrompt`, print the item
name, submit it with the module-level dataset and objective (captured by
the loop body) and `n_samples=10`, display the result. -/
def ua_item_events (system_prompt user_prompt : Template) (dataset : List Val)
    (metric : MetricArg) (item : Val) : Except PyError (List DriverEvent) := do
  let system_text ← render system_prompt []
  let input ← getField item "input"
  let user ← getField input "user"
  let role ← getField user "role"
  let skills ← (← getField user "skills").asStrList
  let careerGoals ← (← getField user "careerGoals").asStrList
  let user_text ← render user_prompt [
    ("userRole", .str role.asString),
    ("userSkills", .str (joinComma skills)),
    ("userCareerGoals", .str (joinComma careerGoals))]
  let nameV ← getField item "name"
  pure [.printName nameV.asString,
        .optimize system_text (.text user_text) dataset metric 10, .display]

/-- `user_skill_agent.py`'s driver: the module constructs its
`MultiMetricObjective` (lines 57–61) before the loop — a construction
failure aborts the script — then loops over all dataset items, each
submission carrying the job's dataset and that objective. -/
def ua_driver (system_prompt user_prompt : Template) (items : List Val) :
    Except PyError (List DriverEvent) := do
  let metric ← ua_metric.mapError PyError.valueErr
  runDriverLoop
    (ua_item_events system_prompt user_prompt items (.objective metric)) items

/-- The body of `skill_resource_retriever.py`'s per-item loop
(lines 81–108): the system text is rendered once per job (line 26), the
user message is the serialization of the restructured item fields. -/
def sr_item_events (system_text : String) (dataset : List Val)
    (metric : MetricArg) (item : Val) : Except PyError (List DriverEvent) := do
  let input ← getField item "input"
  let user ← getField input "user"
  let role ← getField user "role"
  let skills ← getField user "skills"
  let careerGoals ← getField user "careerGoals"
  let goal ← getField input "goal"
  let goalName ← getField goal "name"
  let goalReasoning ← getField goal "reasoning"
  let payload : Val := .obj [
    ("user", .obj [("role", role), ("skills", skills),
                   ("careerGoals", careerGoals)]),
    ("goal", .obj [("name", goalName), ("reasoning", goalReasoning)])]
  let nameV ← getField item "name"
  pure [.printName nameV.asString,
        .optimize system_text (.serialized payload) dataset metric 10, .display]

/-- `skill_resource_retriever.py`'s driver: the system prompt is formatted
once before the loop ("no mustache placeholders", line 26), the
`MultiMetricObjective` is constructed (lines 63–67), then the loop runs
over all dataset items, each submission carrying the job's dataset and
that objective. -/
def sr_driver (system_prompt : Template) (items : List Val) :
    Except PyError (List DriverEvent) := do
  let system_text ← render system_prompt []
  let metric ← sr_metric.mapError PyError.valueErr
  runDriverLoop (sr_item_events system_text items (.objective metric)) items

/-- `DIFFICULTY_DESCRIPTIONS` from `challenge_generator.py` (lines 25–29). -/
def DIFFICULTY_DESCRIPTIONS : List (String × String) := [
  ("easy", "beginner-friendly questions that test basic recall and understanding"),
  ("medium", "intermediate questions that require applying knowledge to scenarios"),
  ("hard", "advanced questions that require deep understanding and critical thinking")]

/-- Python's `DIFFICULTY_DESCRIPTIONS[difficulty]`: `KeyError` when the
difficulty is not one of the three keys. -/
def difficultyDescription (difficulty : String) : Except PyError String :=
  match DIFFICULTY_DESCRIPTIONS.lookup difficulty with
  | some d => .ok d
  | none => .error (.missingField difficulty)

/-- The body of `challenge_generator.py`'s per-item loop (lines 68–106):
extract the difficulty, render the system prompt with its four per-item
values, render the user prompt with fourteen per-item values, print the
item name, submit with `n_samples=10`, display the result. -/
def cg_item_events (system_prompt user_prompt : Template) (dataset : List Val)
    (metric : MetricArg) (item : Val) : Except PyError (List DriverEvent) := do
  let input ← getField item "input"
  let challenge ← getField input "challenge"
  let difficulty := (← getField challenge "difficulty").asString
  let totalQuestions ← getField challenge "totalQuestions"
  let sectionTitle ← getField challenge "sectionTitle"
  let descr ← difficultyDescription difficulty
  let system_text ← render system_prompt [
    ("questionsPerChallenge", .str totalQuestions.asString),
    ("difficultyDescription", .str descr),
    ("sectionTitle", .str sectionTitle.asString),
    ("difficultyUpper", .str difficulty.toUpper)]
  let user ← getField input "user"
  let role ← getField user "role"
  let skills ← (← getField user "skills").asStrList
  let careerGoals ← (← getField user "careerGoals").asStrList
  let goal ← getField input "goal"
  let goalName ← getField goal "name"
  let goalReasoning ← getField goal "reasoning"
  let resource ← getField input "resource"
  let resourceTitle ← getField resource "title"
  let resourceProvider ← getField resource "provider"
  let resourceType ← getField resource "resourceType"
  let resourceDescription ← getField resource "description"
  let learningObjectives ← (← getField resource "learningObjectives").asStrList
  let topics ← getSectionTopics challenge
  let user_text ← render user_prompt [
    ("questionsPerChallenge", .str totalQuestions.asString),
    ("difficulty", .str difficulty),
    ("userRole", .str role.asString),
    ("userSkills", .str (joinComma skills)),
    ("userCareerGoals", .str (joinComma careerGoals)),
    ("goalName", .str goalName.asString),
    ("goalReasoning", .str goalReasoning.asString),
    ("resourceTitle", .str resourceTitle.asString),
    ("resourceProvider", .str resourceProvider.asString),
    ("resourceType", .str resourceType.asString),
    ("resourceDescription", .str resourceDescription.asString),
    ("learningObjectives", .str (joinComma learningObjectives)),
    ("sectionTitle", .str sectionTitle.asString),
    ("sectionTopics", .str (joinComma topics))]
  let nameV ← getField item "name"
  pure [.printName nameV.asString,
        .optimize system_text (.text user_text) dataset metric 10, .display]

/-- `challenge_generator.py`'s driver.  Line 22 reads
`items = [dataset.get_items()[0]]`: only the first dataset item is
processed (an `IndexError` on an empty dataset), then the loop runs over
that one-element list — while each submission still passes the full
dataset (`dataset=dataset`) and the bare `answer_relevance` scorer
(`metric=answer_relevance`). -/
def cg_driver (system_prompt user_prompt : Template) (allItems : List Val) :
    Except PyError (List DriverEvent) := do
  let items ← match allItems with
    | [] => Except.error (PyError.indexOut 0)
    | x :: _ => Except.ok [x]
  runDriverLoop
    (cg_item_events system_prompt user_prompt allItems
      (.scorer cg_relevance_call)) items

/-- The names printed by a driver trace, in order. -/
def eventNames (evs : List DriverEvent) : List String :=
  evs.filterMap fun e =>
    match e with
    | .printName n => some n
    | _ => none

/-- The per-item console/submission pattern: each processed item
contributes exactly a name print, then one submission carrying the given
dataset and objective with `n_samples=10`, then one result display. -/
def EventsShape (dataset : List Val) (metric : MetricArg) :
    List DriverEvent → Prop
  | [] => True
  | DriverEvent.printName _ :: DriverEvent.optimize _ _ d m n ::
      DriverEvent.display :: rest =>
    d = dataset ∧ m = metric ∧ n = 10 ∧ EventsShape dataset metric rest
  | _ => False

/-- The sequenced job scripts, in order (`OPTIMIZERS` in `run_all.py`). -/
def OPTIMIZERS : List String := [
  "meta_optimizers/user_skill_agent.py",
  "meta_optimizers/skill_resource_retriever.py",
  "meta_optimizers/challenge_generator.py"]

/-- One observable step of the sequencer `run_all.py`: the `Running:`
banner plus the subprocess launch of a script, the `FAILED:` note with the
exit code, the summary line (`Total`, `Passed`, `Failed`), and one line of
the failed-optimizers listing. -/
inductive SeqEvent where
  | run : String → SeqEvent
  | failNote : String → Int → SeqEvent
  | summary : Nat → Nat → Nat → SeqEvent
  | failedItem : String → SeqEvent
deriving Repr, DecidableEq

/-- The sequencer's observable outcome: its ordered console/subprocess
event trace and its own process exit code. -/
structure RunAllOutcome where
  events : List SeqEvent
  exitCode : Int
deriving Repr, DecidableEq

/-- One iteration of `run_all.main`'s loop, threading the accumulated
failed-script list and event trace: print the banner and launch the
script; when its exit code is non-zero, record it as failed and print the
`FAILED:` note. -/
def run_all_step (exitOf : String → Int) (acc : List String × List SeqEvent)
    (script : String) : List String × List SeqEvent :=
  let code := exitOf script
  if code ≠ 0 then
    (acc.1 ++ [script], acc.2 ++ [.run script, .failNote script code])
  else
    (acc.1, acc.2 ++ [.run script])

/-- `main` of `run_all.py` (lines 13–42), as a function of each child
script's exit code: run every script in order, print the summary
(`Total: 3, Passed: N-F, Failed: F`), then — only when some script
failed — list the failed optimizers and exit 1; otherwise fall off the end
of `main` and exit 0. -/
def run_all (exitOf : String → Int) : RunAllOutcome :=
  let acc := OPTIMIZERS.foldl (run_all_step exitOf) ([], [])
  let evs := acc.2 ++
    [.summary OPTIMIZERS.length (OPTIMIZERS.length - acc.1.length) acc.1.length]
  if acc.1.isEmpty then ⟨evs, 0⟩
  else ⟨evs ++ acc.1.map SeqEvent.failedItem, 1⟩

/-! ## Helper lemmas -/

theorem exceptBind_ok {ε α β : Type} {e : Except ε α} {f : α → Except ε β}
    {b : β} : (e >>= f) = .ok b ↔ ∃ a, e = .ok a ∧ f a = .ok b := by
  cases e <;> simp [Bind.bind, Except.bind]

theorem exceptPure_ok {ε α : Type} {a b : α} :
    (pure a : Except ε α) = .ok b ↔ a = b := by
  simp [pure, Except.pure]

theorem getField_ok_iff {v : Val} {k : String} {x : Val} :
    getField v k = .ok x ↔ v.get? k = some x := by
  unfold getField
  cases h : v.get? k <;> simp

/-- The events one script contributes to the sequencer's trace. -/
def scriptEvents (exitOf : String → Int) (s : String) : List SeqEvent :=
  if exitOf s ≠ 0 then [.run s, .failNote s (exitOf s)] else [.run s]

theorem foldl_run_all_step (exitOf : String → Int) :
    ∀ (l : List String) (f0 : List String) (e0 : List SeqEvent),
      l.foldl (run_all_step exitOf) (f0, e0) =
        (f0 ++ l.filter (fun s => exitOf s ≠ 0),
         e0 ++ l.flatMap (scriptEvents exitOf)) := by
  intro l
  induction l with
  | nil => intro f0 e0; simp
  | cons a rest ih =>
    intro f0 e0
    by_cases h : exitOf a ≠ 0 <;>
      simp [run_all_step, scriptEvents, h, ih]

/-- Closed form of the sequencer: failed scripts are exactly those with a
non-zero exit code, in order; the trace is each script's events, the
summary, then (on failure) the failed listing. -/
theorem run_all_eq (exitOf : String → Int) :
    run_all exitOf =
      (let failed := OPTIMIZERS.filter (fun s => exitOf s ≠ 0)
       let evs := OPTIMIZERS.flatMap (scriptEvents exitOf) ++
         [.summary OPTIMIZERS.length (OPTIMIZERS.length - failed.length)
           failed.length]
       if failed.isEmpty then ⟨evs, 0⟩
       else ⟨evs ++ failed.map SeqEvent.failedItem, 1⟩) := by
  unfold run_all
  rw [foldl_run_all_step]
  simp

/-- Per-item trace shape: a name print, one submission carrying the job's
dataset and objective with `n_samples=10`, one display. -/
def ItemShape (dataset : List Val) (metric : MetricArg) (item : Val)
    (l : List DriverEvent) : Prop :=
  ∃ s u, l = [.printName (nameOf item),
              .optimize s u dataset metric 10, .display]

theorem nameOf_of_ok {item nameV : Val} (h : getField item "name" = .ok nameV) :
    nameOf item = nameV.asString := by
  rw [getField_ok_iff] at h
  simp [nameOf, h]

theorem ua_item_shape {sp up : Template} {ds : List Val} {mt : MetricArg}
    {item : Val} {l : List DriverEvent}
    (h : ua_item_events sp up ds mt item = .ok l) : ItemShape ds mt item l := by
  simp only [ua_item_events, exceptBind_ok, exceptPure_ok] at h
  obtain ⟨st, _, inp, _, usr, _, role, _, sk, _, sks, _, cg, _, cgs, _, ut, _,
    nv, hnv, hl⟩ := h
  exact ⟨st, .text ut, by rw [← hl, nameOf_of_ok hnv]⟩

theorem sr_item_shape {st : String} {ds : List Val} {mt : MetricArg}
    {item : Val} {l : List DriverEvent}
    (h : sr_item_events st ds mt item = .ok l) : ItemShape ds mt item l := by
  simp only [sr_item_events, exceptBind_ok, exceptPure_ok] at h
  obtain ⟨inp, _, usr, _, rl, _, sk, _, cg, _, gl, _, gn, _, gr, _, nv, hnv, hl⟩ := h
  exact ⟨st, _, by rw [← hl, nameOf_of_ok hnv]⟩

theorem cg_item_shape {sp up : Template} {ds : List Val} {mt : MetricArg}
    {item : Val} {l : List DriverEvent}
    (h : cg_item_events sp up ds mt item = .ok l) : ItemShape ds mt item l := by
  simp only [cg_item_events, exceptBind_ok, exceptPure_ok] at h
  obtain ⟨inp, _, ch, _, dif, _, tq, _, stt, _, dsc, _, sys, _, usr, _, rl, _,
    skg, _, sks, _, cgg, _, cgs, _, gl, _, gn, _, gr, _, rs, _, rt, _, rp, _,
    rty, _, rd, _, log, _, los, _, tps, _, ut, _, nv, hnv, hl⟩ := h
  exact ⟨sys, .text ut, by rw [← hl, nameOf_of_ok hnv]⟩

theorem loop_shape {f : Val → Except PyError (List DriverEvent)}
    {ds : List Val} {mt : MetricArg}
    (hf : ∀ it l, f it = .ok l → ItemShape ds mt it l) :
    ∀ (items : List Val) (evs : List DriverEvent),
      runDriverLoop f items = .ok evs →
      eventNames evs = items.map nameOf ∧ EventsShape ds mt evs := by
  intro items
  induction items with
  | nil =>
    intro evs h
    simp only [runDriverLoop, Except.ok.injEq] at h
    subst h
    exact ⟨rfl, trivial⟩
  | cons it rest ih =>
    intro evs h
    simp only [runDriverLoop, exceptBind_ok, exceptPure_ok] at h
    obtain ⟨l, hl, evs', hrest, heq⟩ := h
    obtain ⟨s, u, rfl⟩ := hf it l hl
    obtain ⟨hn, hs⟩ := ih evs' hrest
    subst heq
    constructor
    · simp only [eventNames] at hn ⊢
      simp [hn]
    · exact ⟨rfl, rfl, rfl, hs⟩

theorem mapError_ok {ε ε' α : Type} {f : ε → ε'} {e : Except ε α} {a : α} :
    e.mapError f = .ok a ↔ e = .ok a := by
  cases e <;> simp [Except.mapError]

/-! ## Theorems for the claims -/

/-- C1: when the second job exits 1 and the first and third exit 0, the
run-all sequencer still launches all three scripts, prints the summary
`Total: 3, Passed: 2, Failed: 1`, lists the second script among the failed
optimizers, and exits with code 1. -/
theorem run_all_isolates_failures (exitOf : String → Int)
    (h1 : exitOf "meta_optimizers/user_skill_agent.py" = 0)
    (h2 : exitOf "meta_optimizers/skill_resource_retriever.py" = 1)
    (h3 : exitOf "meta_optimizers/challenge_generator.py" = 0) :
    (∀ s ∈ OPTIMIZERS, SeqEvent.run s ∈ (run_all exitOf).events) ∧
    SeqEvent.summary 3 2 1 ∈ (run_all exitOf).events ∧
    SeqEvent.failedItem "meta_optimizers/skill_resource_retriever.py" ∈
      (run_all exitOf).events ∧
    (run_all exitOf).exitCode = 1 := by
  rw [run_all_eq]
  simp [OPTIMIZERS, scriptEvents, h1, h2, h3]

/-- The scenario of C1: only the second sequenced script exits non-zero. -/
def failSecondExitCode : String → Int :=
  fun s => if s = "meta_optimizers/skill_resource_retriever.py" then 1 else 0

/-- Witness for C1 at the concrete exit-code assignment where exactly the
second script fails. -/
theorem run_all_isolates_failures_witness :
    (∀ s ∈ OPTIMIZERS, SeqEvent.run s ∈ (run_all failSecondExitCode).events) ∧
    SeqEvent.summary 3 2 1 ∈ (run_all failSecondExitCode).events ∧
    SeqEvent.failedItem "meta_optimizers/skill_resource_retriever.py" ∈
      (run_all failSecondExitCode).events ∧
    (run_all failSecondExitCode).exitCode = 1 :=
  run_all_isolates_failures failSecondExitCode (by decide) (by decide) (by decide)

/-- C2: the sequencer's own exit code is 0 iff every job script exits 0,
it is 1 as soon as one exits non-zero, and the summary event appears in
the trace only after the launch events of all three scripts. -/
theorem run_all_exit_code_iff (exitOf : String → Int) :
    ((run_all exitOf).exitCode = 0 ↔ ∀ s ∈ OPTIMIZERS, exitOf s = 0) ∧
    ((∃ s ∈ OPTIMIZERS, exitOf s ≠ 0) → (run_all exitOf).exitCode = 1) ∧
    (∃ pre post t p f,
      (run_all exitOf).events = pre ++ SeqEvent.summary t p f :: post ∧
      ∀ s ∈ OPTIMIZERS, SeqEvent.run s ∈ pre) := by
  rw [run_all_eq]
  have hrun : ∀ s ∈ OPTIMIZERS,
      SeqEvent.run s ∈ OPTIMIZERS.flatMap (scriptEvents exitOf) := by
    intro s hs
    exact List.mem_flatMap.mpr ⟨s, hs, by simp [scriptEvents]; split <;> simp⟩
  by_cases hall : ∀ s ∈ OPTIMIZERS, exitOf s = 0
  · have hemp : (OPTIMIZERS.filter (fun s => exitOf s ≠ 0)).isEmpty = true := by
      rw [List.isEmpty_iff, List.filter_eq_nil_iff]
      intro a ha
      simpa using hall a ha
    rw [if_pos hemp]
    refine ⟨iff_of_true rfl hall, ?_, ?_⟩
    · rintro ⟨s, hs, hne⟩
      exact absurd (hall s hs) hne
    · exact ⟨OPTIMIZERS.flatMap (scriptEvents exitOf), [], OPTIMIZERS.length,
        OPTIMIZERS.length - (OPTIMIZERS.filter (fun s => exitOf s ≠ 0)).length,
        (OPTIMIZERS.filter (fun s => exitOf s ≠ 0)).length, by simp, hrun⟩
  · have hemp : ¬ (OPTIMIZERS.filter (fun s => exitOf s ≠ 0)).isEmpty = true := by
      simp only [List.isEmpty_iff, List.filter_eq_nil_iff]
      intro hc
      exact hall (fun s hs => by simpa using hc s hs)
    rw [if_neg hemp]
    refine ⟨iff_of_false (by simp) hall, fun _ => rfl, ?_⟩
    exact ⟨OPTIMIZERS.flatMap (scriptEvents exitOf),
      (OPTIMIZERS.filter (fun s => exitOf s ≠ 0)).map SeqEvent.failedItem,
      OPTIMIZERS.length,
      OPTIMIZERS.length - (OPTIMIZERS.filter (fun s => exitOf s ≠ 0)).length,
      (OPTIMIZERS.filter (fun s => exitOf s ≠ 0)).length, by simp, hrun⟩

/-- A dataset item with the full field set `challenge_generator.py` needs. -/
def cgSampleItem (nm : String) : Val := Val.obj [
  ("name", .str nm),
  ("input", .obj [
    ("user", .obj [("role", .str "developer"), ("skills", .list ["Python"]),
                   ("careerGoals", .list ["growth"])]),
    ("goal", .obj [("name", .str "learn sql"), ("reasoning", .str "needed")]),
    ("resource", .obj [("title", .str "course"), ("provider", .str "udemy"),
                       ("resourceType", .str "video"),
                       ("description", .str "db course"),
                       ("learningObjectives", .list ["joins"])]),
    ("challenge", .obj [("sectionTitle", .str "intro"),
                        ("difficulty", .str "easy"),
                        ("totalQuestions", .int 5),
                        ("sectionTopics", .list ["select"])])])]

/-- C3 counterexample: on a two-item dataset the challenge-generator
driver succeeds but its trace names only the first item — it does not
iterate over every item of its dataset (`challenge_generator.py` line 22
keeps only `dataset.get_items()[0]`). -/
theorem cg_driver_first_item_only :
    ∃ evs, cg_driver [Segment.lit "SYS"] [Segment.lit "USR"]
        [cgSampleItem "item-1", cgSampleItem "item-2"] = Except.ok evs ∧
      eventNames evs = ["item-1"] :=
  ⟨_, rfl, rfl⟩

/-- C3 as amended: the user-skill-agent and skill-resource-retriever
drivers iterate over every dataset item in dataset order, while the
challenge-generator driver processes only the first item; every processed
item's trace is its name print, then one submission of the rendered
prompt pair together with the job's dataset and its objective (the
constructed `MultiMetricObjective` for the two multi-metric jobs, the bare
`answer_relevance` scorer for the challenge generator) under the fixed
per-item sample budget 10, then the result display. -/
theorem drivers_iteration_shape (sp up : Template) (items : List Val)
    (evs : List DriverEvent) :
    (ua_driver sp up items = .ok evs →
      ∃ o, ua_metric = .ok o ∧
        eventNames evs = items.map nameOf ∧
        EventsShape items (.objective o) evs) ∧
    (sr_driver sp items = .ok evs →
      ∃ o, sr_metric = .ok o ∧
        eventNames evs = items.map nameOf ∧
        EventsShape items (.objective o) evs) ∧
    (cg_driver sp up items = .ok evs →
      eventNames evs = (items.take 1).map nameOf ∧
      EventsShape items (.scorer cg_relevance_call) evs) := by
  refine ⟨?_, ?_, ?_⟩
  · intro h
    simp only [ua_driver, exceptBind_ok] at h
    obtain ⟨o, ho, hloop⟩ := h
    have hsh := loop_shape (fun it l => ua_item_shape) items evs hloop
    exact ⟨o, mapError_ok.mp ho, hsh.1, hsh.2⟩
  · intro h
    simp only [sr_driver, exceptBind_ok] at h
    obtain ⟨st, hst, o, ho, hloop⟩ := h
    have hsh := loop_shape (fun it l => sr_item_shape) items evs hloop
    exact ⟨o, mapError_ok.mp ho, hsh.1, hsh.2⟩
  · intro h
    match items with
    | [] => simp [cg_driver, Bind.bind, Except.bind] at h
    | x :: rest =>
      simp only [cg_driver, exceptBind_ok, exceptPure_ok, Except.ok.injEq] at h
      obtain ⟨a, ha, hloop⟩ := h
      subst ha
      exact loop_shape (fun it l => cg_item_shape) [x] evs hloop

/-- C4: on any item whose `input.user.skills` is `["Python", "SQL"]` (with
the other required fields present), the relevance scorer's context
contains the literal `"User current skills: Python, SQL"`, and the whole
context is the order-preserving per-fact list; the second conjunct states
the same for `skill_resource_retriever.py`'s scorer. -/
theorem relevance_context_contains_skills (item : Val) (out : String)
    (input user expected roleV cntV : Val) (goals exc : List String)
    (hin : item.get? "input" = some input)
    (hus : input.get? "user" = some user)
    (hrole : user.get? "role" = some roleV)
    (hskills : user.get? "skills" = some (.list ["Python", "SQL"]))
    (hgoals : user.get? "careerGoals" = some (.list goals))
    (hexp : item.get? "expected" = some expected)
    (hcnt : expected.get? "skillCount" = some cntV)
    (hexc : expected.get? "excludedSkills" = some (.list exc)) :
    (∃ jc, ua_relevance_call item out = .ok jc ∧
      "User current skills: Python, SQL" ∈ jc.context ∧
      jc.context = [
        "User role: " ++ roleV.asString,
        "User current skills: Python, SQL",
        "User career goals: " ++ joinComma goals,
        "Expected skill count: " ++ cntV.asString,
        "Skills to exclude (user already has): " ++ joinComma exc,
        "Output format: JSON Lines — one JSON object per line with exactly these fields: name (string), priority (1-10), reasoning (string)"]) ∧
    (∀ goal gn gr mrcV : Val, ∀ provs : List String,
      input.get? "goal" = some goal →
      goal.get? "name" = some gn →
      goal.get? "reasoning" = some gr →
      expected.get? "minResourceCount" = some mrcV →
      expected.get? "expectedProviders" = some (.list provs) →
      ∃ jc, sr_relevance_call item out = .ok jc ∧
        "User current skills: Python, SQL" ∈ jc.context ∧
        jc.context = [
          "User role: " ++ roleV.asString,
          "User current skills: Python, SQL",
          "User career goals: " ++ joinComma goals,
          "Goal: " ++ gn.asString,
          "Goal reasoning: " ++ gr.asString,
          "Expected minimum resources: " ++ mrcV.asString,
          "Expected providers: " ++ joinComma provs,
          "Output format: Array of learning resources with: title, description, provider, resourceType, learningObjectives, sections"]) := by
  have hlit : "User current skills: " ++ joinComma ["Python", "SQL"] =
      "User current skills: Python, SQL" := by decide
  constructor
  · have hcall : ua_relevance_call item out = .ok ⟨input, out, [
        "User role: " ++ roleV.asString,
        "User current skills: " ++ joinComma ["Python", "SQL"],
        "User career goals: " ++ joinComma goals,
        "Expected skill count: " ++ cntV.asString,
        "Skills to exclude (user already has): " ++ joinComma exc,
        "Output format: JSON Lines — one JSON object per line with exactly these fields: name (string), priority (1-10), reasoning (string)"]⟩ := by
      simp [ua_relevance_call, getField, hin, hus, hrole, hskills, hgoals, hexp,
        hcnt, hexc, Bind.bind, Except.bind, Val.asStrList, pure, Except.pure]
    rw [hlit] at hcall
    exact ⟨_, hcall, by simp, rfl⟩
  · intro goal gn gr mrcV provs hgoal hgn hgr hmrc hep
    have hcall : sr_relevance_call item out = .ok ⟨input, out, [
        "User role: " ++ roleV.asString,
        "User current skills: " ++ joinComma ["Python", "SQL"],
        "User career goals: " ++ joinComma goals,
        "Goal: " ++ gn.asString,
        "Goal reasoning: " ++ gr.asString,
        "Expected minimum resources: " ++ mrcV.asString,
        "Expected providers: " ++ joinComma provs,
        "Output format: Array of learning resources with: title, description, provider, resourceType, learningObjectives, sections"]⟩ := by
      simp [sr_relevance_call, getField, hin, hus, hrole, hskills, hgoals, hexp,
        hgoal, hgn, hgr, Val.getD, hmrc, hep, Bind.bind, Except.bind,
        Val.asStrList, pure, Except.pure]
    rw [hlit] at hcall
    exact ⟨_, hcall, by simp, rfl⟩

/-- A dataset item carrying every field both multi-metric scripts read,
with `input.user.skills = ["Python", "SQL"]`. -/
def uaSampleItem : Val := Val.obj [
  ("name", .str "case-1"),
  ("input", .obj [
    ("user", .obj [("role", .str "analyst"),
                   ("skills", .list ["Python", "SQL"]),
                   ("careerGoals", .list ["data engineer"])]),
    ("goal", .obj [("name", .str "learn spark"), ("reasoning", .str "scale")])]),
  ("expected", .obj [("skillCount", .int 3),
                     ("excludedSkills", .list ["Python"]),
                     ("minResourceCount", .int 2),
                     ("expectedProviders", .list ["coursera"])])]

/-- Witness for C4 at a concrete item with skills `["Python", "SQL"]`. -/
theorem relevance_context_contains_skills_witness :
    ∃ jc, ua_relevance_call uaSampleItem "some output" = .ok jc ∧
      "User current skills: Python, SQL" ∈ jc.context := by
  obtain ⟨⟨jc, h1, h2, h3⟩, hsr⟩ := relevance_context_contains_skills
    uaSampleItem "some output"
    (Val.obj [
      ("user", .obj [("role", .str "analyst"),
                     ("skills", .list ["Python", "SQL"]),
                     ("careerGoals", .list ["data engineer"])]),
      ("goal", .obj [("name", .str "learn spark"), ("reasoning", .str "scale")])])
    (Val.obj [("role", .str "analyst"),
              ("skills", .list ["Python", "SQL"]),
              ("careerGoals", .list ["data engineer"])])
    (Val.obj [("skillCount", .int 3),
              ("excludedSkills", .list ["Python"]),
              ("minResourceCount", .int 2),
              ("expectedProviders", .list ["coursera"])])
    (Val.str "analyst") (Val.int 3) ["data engineer"] ["Python"]
    rfl rfl rfl rfl rfl rfl rfl rfl
  exact ⟨jc, h1, h2⟩

/-- C5: on any item whose `input.user` lacks the `role` field, the
relevance scorers of `user_skill_agent.py` and (given its early `challenge`
extraction succeeds) `challenge_generator.py` fail with the missing-field
error naming `role`, substituting no default and forwarding nothing to the
judge metric. -/
theorem missing_role_raises (item : Val) (out : String) (input user : Val)
    (hin : item.get? "input" = some input)
    (hus : input.get? "user" = some user)
    (hrole : user.get? "role" = none) :
    ua_relevance_call item out = .error (.missingField "role") ∧
    (∀ judge, ua_answer_relevance judge item out = .error (.missingField "role")) ∧
    (∀ challenge, input.get? "challenge" = some challenge →
      cg_relevance_call item out = .error (.missingField "role") ∧
      ∀ judge, cg_answer_relevance judge item out = .error (.missingField "role")) := by
  have hua : ua_relevance_call item out = .error (.missingField "role") := by
    simp [ua_relevance_call, getField, hin, hus, hrole, Bind.bind, Except.bind]
  refine ⟨hua, fun judge => by simp [ua_answer_relevance, hua, Except.map], ?_⟩
  intro challenge hch
  have hcg : cg_relevance_call item out = .error (.missingField "role") := by
    simp [cg_relevance_call, getField, hin, hus, hch, hrole, Bind.bind,
      Except.bind]
  exact ⟨hcg, fun judge => by simp [cg_answer_relevance, hcg, Except.map]⟩

/-- A dataset item whose `input.user` has no `role` field. -/
def noRoleItem : Val := Val.obj [
  ("name", .str "case-2"),
  ("input", .obj [
    ("user", .obj [("skills", .list ["Python"])]),
    ("challenge", .obj [("difficulty", .str "easy")])])]

/-- Witness for C5 at a concrete item missing `input.user.role`. -/
theorem missing_role_raises_witness :
    ua_relevance_call noRoleItem "some output" =
      .error (.missingField "role") :=
  (missing_role_raises noRoleItem "some output"
    (Val.obj [
      ("user", .obj [("skills", .list ["Python"])]),
      ("challenge", .obj [("difficulty", .str "easy")])])
    (Val.obj [("skills", .list ["Python"])]) rfl rfl rfl).1

/-- C6: the cost scorer returns exactly 100 times the cost-accounting
value read from the telemetry span, and the duration scorer returns the
span's duration measurement unscaled. -/
theorem telemetry_scaling (item : Val) (out : String) (span : TaskSpan) :
    cost_in_cents item out span = 100 * span.totalCost ∧
    duration_seconds item out span = span.durationSeconds :=
  ⟨mul_comm _ _, rfl⟩

theorem foldl_zip_mul_sum :
    ∀ (ws ss : List ℚ) (c : ℚ),
      (ws.zip ss).foldl (fun acc p => acc + p.1 * p.2) c =
        c + (List.zipWith (fun w s => w * s) ws ss).sum := by
  intro ws
  induction ws with
  | nil => intro ss c; simp
  | cons w wrest ih =>
    intro ss c
    cases ss with
    | nil => simp
    | cons s srest => simp [ih, add_assoc]

/-- C7: a successfully constructed multi-metric objective combines
component scores as the weighted sum `Σ weight_i * score_i`, construction
fails on weight/metric lists of unequal length, and both multi-metric jobs
construct their objective with weights `[1.0, -0.25, -0.25]` positionally
aligned with the relevance, cost, and duration scorers. -/
theorem multi_metric_objective_spec :
    (∀ (weights scores : List ℚ) (metrics : List JobScorer) (nm : String)
        (o : MultiMetricObjective),
      MultiMetricObjective.make weights metrics nm = .ok o →
      o.combine scores =
        (List.zipWith (fun w s => w * s) weights scores).sum) ∧
    (∀ (weights : List ℚ) (metrics : List JobScorer) (nm : String),
      weights.length ≠ metrics.length →
      ∃ msg, MultiMetricObjective.make weights metrics nm = .error msg) ∧
    ua_metric = .ok ⟨[1, -(1/4), -(1/4)],
      [.relevance ua_relevance_call, .telemetry cost_in_cents,
       .telemetry duration_seconds], "relevance_cost_duration"⟩ ∧
    sr_metric = .ok ⟨[1, -(1/4), -(1/4)],
      [.relevance sr_relevance_call, .telemetry cost_in_cents,
       .telemetry duration_seconds], "relevance_cost_duration"⟩ := by
  refine ⟨?_, ?_, rfl, rfl⟩
  · intro weights scores metrics nm o hmk
    unfold MultiMetricObjective.make at hmk
    split at hmk
    · cases hmk
      simpa [MultiMetricObjective.combine] using foldl_zip_mul_sum weights scores 0
    · cases hmk
  · intro weights metrics nm hne
    exact ⟨"weights and metrics must have the same length",
      by simp [MultiMetricObjective.make, hne]⟩

/-- C8: when the map supplies every placeholder the template declares,
rendering succeeds, and the rendered text depends only on the template and
the map's values at those placeholders — so rendering twice with the same
template and map yields identical text (instantiate the second map with
the first), and there are no side effects to depend on. -/
theorem render_deterministic (t : Template) (m mo : List (String × TValue))
    (hsup : ∀ n ∈ t.placeholders, (m.lookup n).isSome)
    (hagree : ∀ n ∈ t.placeholders, m.lookup n = mo.lookup n) :
    (∃ s, render t m = .ok s) ∧ render t m = render t mo := by
  induction t with
  | nil => exact ⟨⟨"", rfl⟩, rfl⟩
  | cons seg rest ih =>
    cases seg with
    | lit s =>
      have hsub : ∀ n ∈ Template.placeholders rest, (m.lookup n).isSome := by
        intro n hn
        exact hsup n (by simp [Template.placeholders] at hn ⊢; exact hn)
      have hsub2 : ∀ n ∈ Template.placeholders rest, m.lookup n = mo.lookup n := by
        intro n hn
        exact hagree n (by simp [Template.placeholders] at hn ⊢; exact hn)
      obtain ⟨⟨r, hr⟩, heq⟩ := ih hsub hsub2
      refine ⟨⟨s ++ r, ?_⟩, ?_⟩
      · simp [render, hr, Except.map]
      · simp [render, heq]
    | hole n =>
      have hmem : n ∈ Template.placeholders (Segment.hole n :: rest) := by
        simp [Template.placeholders]
      have hsub : ∀ x ∈ Template.placeholders rest, (m.lookup x).isSome := by
        intro x hx
        exact hsup x (by simp [Template.placeholders] at hx ⊢; right; exact hx)
      have hsub2 : ∀ x ∈ Template.placeholders rest, m.lookup x = mo.lookup x := by
        intro x hx
        exact hagree x (by simp [Template.placeholders] at hx ⊢; right; exact hx)
      obtain ⟨v, hv⟩ := Option.isSome_iff_exists.mp (hsup n hmem)
      have hv2 : mo.lookup n = some v := (hagree n hmem) ▸ hv
      obtain ⟨⟨r, hr⟩, heq⟩ := ih hsub hsub2
      refine ⟨⟨v.coerce ++ r, ?_⟩, ?_⟩
      · simp [render, hv, hr, Except.map]
      · simp [render, hv, hv2, heq]

/-- A template declaring one placeholder, and two maps agreeing on it. -/
def sampleTemplate : Template := [.lit "Hello ", .hole "who", .lit "!"]

/-- A map supplying `sampleTemplate`'s placeholder. -/
def sampleMap : List (String × TValue) := [("who", .str "World")]

/-- `sampleMap` extended with an unused entry. -/
def sampleMapBig : List (String × TValue) :=
  [("who", .str "World"), ("extra", .str "x")]

/-- Witness for C8 at a concrete template and map pair. -/
theorem render_deterministic_witness :
    (∃ s, render sampleTemplate sampleMap = .ok s) ∧
    render sampleTemplate sampleMap = render sampleTemplate sampleMapBig :=
  render_deterministic sampleTemplate sampleMap sampleMapBig
    (by decide) (by decide)

/-- C9: the skill-resource-retriever relevance scorer tolerates an absent
or partial `expected` structure: with the required `input` fields present,
a missing `expected` key defaults to an empty mapping, a missing
`minResourceCount` renders as the literal `N/A`, a missing
`expectedProviders` renders as an empty provider list, and the judge
metric is still invoked. -/
theorem sr_expected_defaults (item : Val) (out : String)
    (input user goal roleV gn gr e : Val) (skills goals : List String)
    (hin : item.get? "input" = some input)
    (hus : input.get? "user" = some user)
    (hrole : user.get? "role" = some roleV)
    (hsk : user.get? "skills" = some (.list skills))
    (hcg : user.get? "careerGoals" = some (.list goals))
    (hgoal : input.get? "goal" = some goal)
    (hgn : goal.get? "name" = some gn)
    (hgr : goal.get? "reasoning" = some gr)
    (he : item.getD "expected" (Val.obj []) = e)
    (hmrc : e.get? "minResourceCount" = none)
    (hep : e.get? "expectedProviders" = none) :
    ∃ jc, sr_relevance_call item out = .ok jc ∧
      "Expected minimum resources: N/A" ∈ jc.context ∧
      "Expected providers: " ∈ jc.context ∧
      (∀ judge, sr_answer_relevance judge item out = .ok (judge jc)) := by
  have h1 : "Expected minimum resources: " ++
      (e.getD "minResourceCount" (Val.str "N/A")).asString =
      "Expected minimum resources: N/A" := by
    simp [Val.getD, hmrc]
    decide
  have h2 : "Expected providers: " ++ joinComma [] = "Expected providers: " := by
    decide
  have hcall : sr_relevance_call item out = .ok ⟨input, out, [
      "User role: " ++ roleV.asString,
      "User current skills: " ++ joinComma skills,
      "User career goals: " ++ joinComma goals,
      "Goal: " ++ gn.asString,
      "Goal reasoning: " ++ gr.asString,
      "Expected minimum resources: N/A",
      "Expected providers: ",
      "Output format: Array of learning resources with: title, description, provider, resourceType, learningObjectives, sections"]⟩ := by
    rw [← h1, ← h2]
    simp only [Val.getD] at he
    simp [sr_relevance_call, getField, hin, hus, hrole, hsk, hcg, hgoal, hgn,
      hgr, he, Val.getD, hmrc, hep, Bind.bind, Except.bind, Val.asStrList,
      pure, Except.pure]
  refine ⟨_, hcall, by simp, by simp, fun judge => by
    simp [sr_answer_relevance, hcall, Except.map]⟩

/-- A dataset item with the full `input` field set of the retriever script
but no `expected` structure at all. -/
def srSampleItem : Val := Val.obj [
  ("name", .str "case-3"),
  ("input", .obj [
    ("user", .obj [("role", .str "analyst"), ("skills", .list ["Python"]),
                   ("careerGoals", .list ["lead"])]),
    ("goal", .obj [("name", .str "learn"), ("reasoning", .str "why")])])]

/-- Witness for C9 at a concrete item with no `expected` structure. -/
theorem sr_expected_defaults_witness :
    ∃ jc, sr_relevance_call srSampleItem "some output" = .ok jc ∧
      "Expected minimum resources: N/A" ∈ jc.context ∧
      "Expected providers: " ∈ jc.context := by
  obtain ⟨jc, h1, h2, h3, h4⟩ := sr_expected_defaults srSampleItem "some output"
    (Val.obj [
      ("user", .obj [("role", .str "analyst"), ("skills", .list ["Python"]),
                     ("careerGoals", .list ["lead"])]),
      ("goal", .obj [("name", .str "learn"), ("reasoning", .str "why")])])
    (Val.obj [("role", .str "analyst"), ("skills", .list ["Python"]),
              ("careerGoals", .list ["lead"])])
    (Val.obj [("name", .str "learn"), ("reasoning", .str "why")])
    (Val.str "analyst") (Val.str "learn") (Val.str "why") (Val.obj [])
    ["Python"] ["lead"]
    rfl rfl rfl rfl rfl rfl rfl rfl rfl rfl rfl
  exact ⟨jc, h1, h2, h3⟩

/-- C10: the user-skill-agent relevance scorer reads
`expected.skillCount` and `expected.excludedSkills` unconditionally, so an
item lacking the `expected` structure (with the required `input` fields
present) makes it raise the missing-key error naming `expected` before the
judge metric is ever invoked. -/
theorem ua_requires_expected (item : Val) (out : String)
    (input user roleV : Val) (skills goals : List String)
    (hin : item.get? "input" = some input)
    (hus : input.get? "user" = some user)
    (hrole : user.get? "role" = some roleV)
    (hsk : user.get? "skills" = some (.list skills))
    (hcg : user.get? "careerGoals" = some (.list goals))
    (hexp : item.get? "expected" = none) :
    ua_relevance_call item out = .error (.missingField "expected") ∧
    ∀ judge, ua_answer_relevance judge item out =
      .error (.missingField "expected") := by
  have hua : ua_relevance_call item out = .error (.missingField "expected") := by
    simp [ua_relevance_call, getField, hin, hus, hrole, hsk, hcg, hexp,
      Bind.bind, Except.bind, Val.asStrList]
  exact ⟨hua, fun judge => by simp [ua_answer_relevance, hua, Except.map]⟩

/-- Witness for C10 at a concrete item lacking the `expected` structure. -/
theorem ua_requires_expected_witness :
    ua_relevance_call srSampleItem "some output" =
      .error (.missingField "expected") :=
  (ua_requires_expected srSampleItem "some output"
    (Val.obj [
      ("user", .obj [("role", .str "analyst"), ("skills", .list ["Python"]),
                     ("careerGoals", .list ["lead"])]),
      ("goal", .obj [("name", .str "learn"), ("reasoning", .str "why")])])
    (Val.obj [("role", .str "analyst"), ("skills", .list ["Python"]),
              ("careerGoals", .list ["lead"])])
    (Val.str "analyst") ["Python"] ["lead"]
    rfl rfl rfl rfl rfl rfl).1

end NextLevel
